import Mathlib

/-!
Verification development for the MLT QML producer module.

The definitions below are a shallow embedding of the C++ sources
`src/modules/qt/qml_wrapper.cpp`, `src/modules/qt/producer_qml.cpp`,
`src/modules/qt/corerenderer.h` and the two companion translation units
(`CoreRenderer` implementation and the older `renderKdenliveTitle`).
Machine integers (C `int`, `qint64`, `mlt_position`) are modelled as `Int`;
C++ integer division, which truncates toward zero, is `Int.tdiv`.
GPU objects are abstracted to the data the claims observe: a framebuffer is
its pixel size, an image is its pixel size, a heap buffer is an address into
an allocation pool.  Code paths that are undefined behaviour in C++
(division by zero, dereferencing the result of `max_element` on an empty
range, falling off the end of a non-void function, dereferencing a null
pointer) are modelled as `none` / a dedicated error constructor.
-/

/- String literals used by the scene metadata utilities.  They are bound to
names here and only used through these names. -/

def strSequential : String := "Sequential"

def strParallel : String := "Parallel"

def strNumberAnimation : String := "NumberAnimation"

def strColorAnimation : String := "ColorAnimation"

def strPauseAnimation : String := "PauseAnimation"

def strPathAnimation : String := "PathAnimation"

def strRotationAnimation : String := "RotationAnimation"

def strPropertyAnimation : String := "PropertyAnimation"

def strDuration : String := "duration"

/-- Character-list matcher: `matchesAt pat s` is true when `pat` occurs at the
head of `s`.  Helper for the `QString::contains` substring test used by
`getMaxDuration`. -/
def matchesAt : List Char → List Char → Bool
  | [], _ => true
  | _ :: _, [] => false
  | a :: as, b :: bs => a == b && matchesAt as bs

/-- Predicate `hasSub pat s` is true when `pat` occurs as a contiguous substring of
`s`.  Models `QString::contains`. -/
def hasSub (pat : List Char) : List Char → Bool
  | [] => matchesAt pat []
  | c :: rest => matchesAt pat (c :: rest) || hasSub pat rest

/-- Predicate `strContains s pat` models `s.contains(pat)` on `QString`. -/
def strContains (s pat : String) : Bool := hasSub pat.data s.data

/-- Embeds `getIntProp` (qml_wrapper.cpp lines 517-532).  The meta-object
property table of a `QObject` is modelled as an association list from
property names to their integer values.  The loop scans the properties in
order and returns at the first property whose name matches and whose value
is strictly positive, dividing a `duration` value by 1000 (C++ integer
division, milliseconds to seconds); when no such property exists the final
`return 0` is reached. -/
def getIntProp (props : List (String × Int)) (propertyName : String) : Int :=
  match props with
  | [] => 0
  | (n, v) :: rest =>
    if n = propertyName ∧ 0 < v then
      if propertyName = strDuration then Int.tdiv v 1000 else v
    else getIntProp rest propertyName

/-- A node of the loaded scene tree: its meta-object class name, its integer
properties, and its children in order (`QObject::children()`). -/
inductive QNode where
  | node (className : String) (props : List (String × Int)) (children : List QNode)

/-- The leaf-animation test of `getMaxDuration` (qml_wrapper.cpp line 558):
the class name contains one of the six animation class-name fragments. -/
def isAnimationLeaf (name : String) : Bool :=
  strContains name strNumberAnimation || strContains name strColorAnimation ||
  strContains name strPauseAnimation || strContains name strPathAnimation ||
  strContains name strRotationAnimation || strContains name strPropertyAnimation

mutual

/-- Embeds `getMaxDuration` (qml_wrapper.cpp lines 534-570).  `none` models
undefined behaviour: for a `Parallel` node with no children the source
dereferences `max_element` of an empty vector; in the final `else` branch,
when no child yields a positive duration, control falls off the end of the
non-void function.  The `root == nullptr` guard is not modelled because
children of a `QObject` are never null. -/
def getMaxDuration (n : QNode) : Option Int :=
  match n with
  | .node name props children =>
    if strContains name strSequential then
      match childDurations children with
      | some ds => some (ds.foldl (fun a b => a + b) 0)
      | none => none
    else if strContains name strParallel then
      match childDurations children with
      | some (d :: ds) => some (ds.foldl max d)
      | _ => none
    else if isAnimationLeaf name then
      some (getIntProp props strDuration)
    else firstPositiveChild children

/-- The recursive results of `getMaxDuration` over a children list, in
order; `none` as soon as one child's result is undefined. -/
def childDurations (l : List QNode) : Option (List Int) :=
  match l with
  | [] => some []
  | c :: cs =>
    match getMaxDuration c, childDurations cs with
    | some d, some ds => some (d :: ds)
    | _, _ => none

/-- The final `else` branch of `getMaxDuration`: return the first child
whose recursive duration is strictly positive; when no child qualifies the
source reaches the end of the function without returning (`none`). -/
def firstPositiveChild (l : List QNode) : Option Int :=
  match l with
  | [] => none
  | c :: cs =>
    match getMaxDuration c with
    | none => none
    | some d => if 0 < d then some d else firstPositiveChild cs

end

/-- Embeds `QmlAnimationDriver` (qml_wrapper.cpp lines 58-77): the
deterministic clock, with `m_step : int` and `m_elapsed : qint64`. -/
structure QmlAnimationDriver where
  m_step : Int
  m_elapsed : Int
deriving DecidableEq

/-- The constructor `QmlAnimationDriver(int msPerStep)`:
`m_step(msPerStep), m_elapsed(0)`. -/
def QmlAnimationDriver.create (msPerStep : Int) : QmlAnimationDriver :=
  ⟨msPerStep, 0⟩

/-- Models `QmlAnimationDriver::advance()`: `m_elapsed += m_step` followed by
`advanceAnimation()`, which ticks the toolkit's animation registry and does
not touch the driver's fields. -/
def QmlAnimationDriver.advanceStep (d : QmlAnimationDriver) : QmlAnimationDriver :=
  ⟨d.m_step, d.m_elapsed + d.m_step⟩

/-- Models `QmlAnimationDriver::elapsed()`: returns `m_elapsed`. -/
def QmlAnimationDriver.elapsedMs (d : QmlAnimationDriver) : Int :=
  d.m_elapsed

/-- The driver after `n` calls to `advance()`. -/
def advanceN (d : QmlAnimationDriver) : Nat → QmlAnimationDriver
  | 0 => d
  | n + 1 => (advanceN d n).advanceStep

/-- The frame count stored by the `QmlRenderer` constructor
(qml_wrapper.cpp line 234): `m_framesCount(fps*duration)`. -/
def framesCountOf (fps duration : Int) : Int := fps * duration

/-- Embeds the step-size computation of `QmlRenderer::initDriver`
(qml_wrapper.cpp lines 354-362):
`correctedFrames = m_framesCount - 2; correctedFps = correctedFrames/m_duration;
new QmlAnimationDriver(1000 / correctedFps)`.
`none` models the undefined behaviour of a C++ integer division by zero,
which happens when `m_duration = 0` and also when the truncated quotient
`correctedFps` is zero. -/
def initDriverStep (fps duration : Int) : Option Int :=
  if duration = 0 then none
  else
    let correctedFps := Int.tdiv (framesCountOf fps duration - 2) duration
    if correctedFps = 0 then none
    else some (Int.tdiv 1000 correctedFps)

/-- Embeds the animated frame-seeking loop `QmlRenderer::renderAnimated`
(qml_wrapper.cpp lines 448-469) driven through the posted
`QEvent::UpdateRequest` events of `render(int,int,QImage::Format,int)`
(lines 321-340).  One call of this function is one `renderAnimated` call:
`polishSyncRender()` renders the scene in its current animation state (the
image is tagged with the number of driver advances performed so far), then
`m_animationDriver->advance()` runs, then the image is captured when
`m_currentFrame == m_requestedFrame`; otherwise `m_currentFrame` is
incremented and a further `UpdateRequest` is posted while
`m_currentFrame < m_framesCount`, else the last rendered image is captured.
A capture emits `imageReady`, whose queued connection quits the caller's
event loop before the next posted `UpdateRequest` can be delivered, so the
function returns at the first capture.  The result is the pair of the
captured image's tag and the number of driver advances performed when the
capture happened. -/
def renderAnimatedLoop (requested framesCount current advances : Int) : Int × Int :=
  if _hreq : current = requested then (advances, advances + 1)
  else if _hnext : current + 1 < framesCount then
    renderAnimatedLoop requested framesCount (current + 1) (advances + 1)
  else (advances, advances + 1)
termination_by (framesCount - current).toNat
decreasing_by
  simp_wf
  omega

/-- Models `QmlRenderer::render(width, height, format, frame)`: sets
`m_requestedFrame = frame`, `m_currentFrame = 0` and runs the animated loop
of a session constructed with the given fps and duration (the fresh driver
of `initDriver` has performed 0 advances). -/
def renderAnimatedResult (fps duration requested : Int) : Int × Int :=
  renderAnimatedLoop requested (framesCountOf fps duration) 0 0

/-- State of the render worker that the resize and context-failure claims
observe: the framebuffer object as its allocated pixel size (or `none`
before allocation / after deletion) and the last read-back image `m_image`
as its pixel size. -/
structure CoreState where
  m_fbo : Option (Int × Int)
  m_image : Option (Int × Int)
deriving DecidableEq

/-- Result of one delivery of the `RENDER` event to a worker: the new
worker state and whether `m_cond.wakeOne()` was executed during the step. -/
structure RenderStepOut where
  state : CoreState
  signaled : Bool
deriving DecidableEq

/-- Embeds `QmlCoreRenderer::ensureFbo` (qml_wrapper.cpp lines 129-144):
if an FBO exists whose size differs from `m_size * m_dpr` it is deleted;
if there is then no FBO a new one of size `m_size * m_dpr` is allocated.
The device pixel ratio, a `qreal` that every session fixes to 1.0, is
modelled as an integer scale. -/
def QmlCoreRenderer.ensureFbo (size : Int × Int) (dpr : Int)
    (fbo0 : Option (Int × Int)) : Option (Int × Int) :=
  let target : Int × Int := (size.1 * dpr, size.2 * dpr)
  let fbo1 : Option (Int × Int) :=
    match fbo0 with
    | some s => if s ≠ target then none else some s
    | none => none
  match fbo1 with
  | none => some target
  | some s => some s

/-- Embeds `QmlCoreRenderer::render` (qml_wrapper.cpp lines 146-169), one
processing of the `RENDER` event: if `m_context->makeCurrent` fails the
function logs and returns, touching neither `m_fbo` nor `m_image` and not
signalling `m_cond`; otherwise it ensures the FBO, synchronizes, draws,
flushes, reads the FBO back into `m_image` (an image of the FBO's size,
converted to the requested format), wakes the blocked caller and unlocks. -/
def QmlCoreRenderer.renderEvent (makeCurrentOk : Bool) (size : Int × Int)
    (dpr : Int) (st : CoreState) : RenderStepOut :=
  if makeCurrentOk then
    let fbo := QmlCoreRenderer.ensureFbo size dpr st.m_fbo
    ⟨⟨fbo, fbo⟩, true⟩
  else ⟨st, false⟩

/-- Embeds `CoreRenderer::ensureFbo` from the companion translation unit
(lines 96-111): the body of the size-mismatch branch is commented out
(`// m_fbo.reset();`), so an existing FBO is never released; a new FBO is
allocated only when none exists. -/
def CoreRenderer.ensureFbo (size : Int × Int) (dpr : Int)
    (fbo0 : Option (Int × Int)) : Option (Int × Int) :=
  match fbo0 with
  | none => some (size.1 * dpr, size.2 * dpr)
  | some s => some s

/-- Embeds `CoreRenderer::render` from the companion translation unit
(lines 113-146): same shape as `QmlCoreRenderer::render` but with the
non-reallocating `ensureFbo` (the trailing `m_animationDriver->advance()`
does not touch this state). -/
def CoreRenderer.renderEvent (makeCurrentOk : Bool) (size : Int × Int)
    (dpr : Int) (st : CoreState) : RenderStepOut :=
  if makeCurrentOk then
    let fbo := CoreRenderer.ensureFbo size dpr st.m_fbo
    ⟨⟨fbo, fbo⟩, true⟩
  else ⟨st, false⟩

/-- Result of `QmlRenderer::loadInput` (qml_wrapper.cpp lines 385-395). -/
inductive LoadInputResult where
  | loaded (w h : Int)
  | nullDeref
deriving DecidableEq

/-- Embeds `QmlRenderer::loadRootObject` (qml_wrapper.cpp lines 408-428):
returns `none` (and leaves `m_rootItem` null) when the QML component
reports errors or when the created root object is not a `QQuickItem`;
otherwise `m_rootItem` is set. -/
def loadRootObject (componentIsError rootIsQuickItem : Bool) : Option Unit :=
  if componentIsError then none
  else if rootIsQuickItem then some () else none

/-- Embeds `QmlRenderer::loadInput` (qml_wrapper.cpp lines 385-395): the
boolean result of `loadRootObject` is only fed to `Q_ASSERT`, a no-op in
release builds, after which execution continues with
`m_rootItem->setWidth(...)`: when the root item is absent this is a null
dereference (`LoadInputResult.nullDeref`), not an error return. -/
def loadInput (componentIsError rootIsQuickItem : Bool) (w h : Int) :
    LoadInputResult :=
  match loadRootObject componentIsError rootIsQuickItem with
  | none => LoadInputResult.nullDeref
  | some _ => LoadInputResult.loaded w h

/-- The producer properties that the reload claim observes: the
`force_reload` integer property, the `_qmldata` string property (the QML
source text last read from disk) and the `duration` position property set
by `read_qml`. -/
structure QmlProps where
  force_reload : Int
  qmldata : Option String
  durationPos : Int
deriving DecidableEq

/-- Embeds `read_qml` (producer_qml.cpp lines 244-275): opens the resource
file (`file = none` models a stream error: the function logs and returns);
on success the file's text is stored in `_qmldata`; then the scene is
compiled (`parseOk = false` models a component error: log and return),
`duration` is set to position 0 and `traverseQml` — declared in
qml_wrapper.h but absent from the sources — updates further properties,
abstracted as the `traverse` parameter. -/
def read_qml (file : Option String) (parseOk : Bool)
    (traverse : QmlProps → QmlProps) (props : QmlProps) : QmlProps :=
  match file with
  | none => props
  | some s =>
    let p1 : QmlProps := ⟨props.force_reload, some s, props.durationPos⟩
    if parseOk then traverse ⟨p1.force_reload, p1.qmldata, 0⟩ else p1

/-- The producer-property effect of `renderKdenliveTitle` (qml_wrapper.cpp
lines 604-614): when the `duration` property is set, or `force_refresh == 1`,
or the requested size differs from the cached one, or the session is
animated, `force_reload` is set to 0; no other producer property modelled
here is written (the function writes only the `_cached_*` data properties,
`qrenderer`, and the frame's width/height). -/
def renderTitleProps (force_refresh : Int)
    (durationSet sizeChanged animated : Bool) (props : QmlProps) : QmlProps :=
  if durationSet || (force_refresh == 1) || sizeChanged || animated then
    ⟨0, props.qmldata, props.durationPos⟩
  else props

/-- Embeds the reload logic of `producer_get_image` (producer_qml.cpp lines
311-324): when `force_reload` is nonzero, `read_qml` re-reads the QML
source from disk exactly when `force_reload > 1`, then `force_reload` is
set to 0 and `renderKdenliveTitle` runs with `force_refresh = 1`; when
`force_reload` is 0, `renderKdenliveTitle` runs with `force_refresh = 0`.
Returns the resulting properties and whether `read_qml` was invoked. -/
def producer_get_image_props (traverse : QmlProps → QmlProps)
    (file : Option String) (parseOk durationSet sizeChanged animated : Bool)
    (props : QmlProps) : QmlProps × Bool :=
  if props.force_reload ≠ 0 then
    let p1 := if 1 < props.force_reload then read_qml file parseOk traverse props
              else props
    ⟨renderTitleProps 1 durationSet sizeChanged animated ⟨0, p1.qmldata, p1.durationPos⟩,
      decide (1 < props.force_reload)⟩
  else
    ⟨renderTitleProps 0 durationSet sizeChanged animated props, false⟩

/-- The `mlt_pool` allocator: `next` is the next fresh buffer address,
`mem` maps an address to the byte contents of the buffer living there. -/
structure Pool where
  next : Nat
  mem : Nat → List Int

/-- Models `mlt_pool_alloc`: returns a fresh address and bumps the allocator. -/
def Pool.alloc (p : Pool) : Nat × Pool :=
  (p.next, ⟨p.next + 1, p.mem⟩)

/-- Models `memcpy` into a pool buffer: overwrites the contents at one address. -/
def Pool.write (p : Pool) (addr : Nat) (v : List Int) : Pool :=
  ⟨p.next, fun a => if a = addr then v else p.mem a⟩

/-- Freshness `p < n` for an optional buffer address: every buffer the producer holds
was handed out by the allocator before `next`.  This is the freshness
invariant of `mlt_pool_alloc`. -/
def ptrFresh (o : Option Nat) (n : Nat) : Bool :=
  match o with
  | none => true
  | some p => p < n

/-- The producer state fields of `producer_ktitle_qml_s` that
`producer_get_image` reads after the render attempt: the cached image and
alpha buffers (addresses into the pool, or `none`). -/
structure KTitleState where
  current_image : Option Nat
  current_alpha : Option Nat
deriving DecidableEq

/-- The buffer pointers the frame carries out of `producer_get_image`
(`mlt_frame_set_image` / `mlt_frame_set_alpha`, and `*buffer`). -/
structure FrameState where
  image : Option Nat
  alpha : Option Nat
deriving DecidableEq

/-- Result of the clone-and-return section of `producer_get_image`. -/
structure GetImageOut where
  err : Int
  frame : FrameState
  pool : Pool

/-- Embeds the tail of `producer_get_image` (producer_qml.cpp lines
329-367), entered with the producer state left by the render attempt: if
`self->current_image` exists, a fresh buffer is allocated, the cached image
contents are copied into it, and the copy — never the cached buffer — is
set on the frame and returned through `*buffer`; when `self->current_alpha`
exists it is cloned the same way; otherwise `error = 1`. -/
def producer_get_image_clone (self : KTitleState) (frame : FrameState)
    (pool : Pool) : GetImageOut :=
  match self.current_image with
  | none => ⟨1, frame, pool⟩
  | some src =>
    let dst := (Pool.alloc pool).1
    let p1 := (Pool.alloc pool).2
    let p2 := Pool.write p1 dst (p1.mem src)
    let frame1 : FrameState := ⟨some dst, frame.alpha⟩
    match self.current_alpha with
    | none => ⟨0, frame1, p2⟩
    | some asrc =>
      let adst := (Pool.alloc p2).1
      let p3 := (Pool.alloc p2).2
      let p4 := Pool.write p3 adst (p3.mem asrc)
      ⟨0, ⟨some dst, some adst⟩, p4⟩

/- Concrete scene-tree fixtures used by the counterexamples and witnesses
below.  The class names are the Qt Quick meta-object class names of the
respective QML animation types. -/

def strSequentialGroup : String := "QQuickSequentialAnimation"

def strParallelGroup : String := "QQuickParallelAnimation"

def strOtherItem : String := "QQuickRectangle"

/-- A leaf animation node declaring a `duration` property of `ms`
milliseconds. -/
def leafAnim (ms : Int) : QNode :=
  QNode.node strNumberAnimation [(strDuration, ms)] []

/-- A sequential group of a 2000 ms and a 3000 ms animation. -/
def seqFixture : QNode :=
  QNode.node strSequentialGroup [] [leafAnim 2000, leafAnim 3000]

/-- Helper: the driver constructed with step `s` has, after `n` advances,
elapsed `n * s` and still step `s`. -/
theorem advanceN_create (s : Int) (n : Nat) :
    (advanceN (QmlAnimationDriver.create s) n).m_elapsed = (n : Int) * s ∧
    (advanceN (QmlAnimationDriver.create s) n).m_step = s := by
  induction n with
  | zero => simp [advanceN, QmlAnimationDriver.create]
  | succ n ih =>
    simp only [advanceN, QmlAnimationDriver.advanceStep, ih.1, ih.2]
    constructor
    · push_cast
      ring
    · trivial

/-- C2, counterexample.  The claim asserts that every
`QmlAnimationDriver` instance is monotonically non-decreasing; the
constructor accepts any `int` step, and `initDriver` itself produces the
step `1000 / ((1*1 - 2) / 1)` = `-1000` for a session with `fps = 1`,
`duration = 1`.  With step `-1000`, `elapsed()` strictly decreases across
one `advance()`. -/
theorem C2_clock_counterexample :
    (advanceN (QmlAnimationDriver.create (-1000)) 1).elapsedMs <
      (advanceN (QmlAnimationDriver.create (-1000)) 0).elapsedMs := by
  decide

/-- C2, amended.  For every step `s` and every `n`, `elapsed()` after `n`
calls to `advance()` is exactly `n * s` (the model has no wall-clock input
at all); `advance()` changes nothing but adding `s` to the elapsed counter;
consequently `elapsed()` is monotonically non-decreasing whenever the step
is non-negative (which the claim's universal monotonicity statement must be
restricted to). -/
theorem C2_clock_amended (s : Int) (n : Nat) :
    (advanceN (QmlAnimationDriver.create s) n).elapsedMs = (n : Int) * s ∧
    (∀ d : QmlAnimationDriver,
        d.advanceStep.m_step = d.m_step ∧
        d.advanceStep.m_elapsed = d.m_elapsed + d.m_step) ∧
    (0 ≤ s →
        (advanceN (QmlAnimationDriver.create s) n).elapsedMs ≤
          (advanceN (QmlAnimationDriver.create s) (n + 1)).elapsedMs) := by
  refine ⟨(advanceN_create s n).1, fun d => ⟨rfl, rfl⟩, fun hs => ?_⟩
  have h1 := (advanceN_create s n).1
  have h2 := (advanceN_create s (n + 1)).1
  unfold QmlAnimationDriver.elapsedMs
  rw [h1, h2]
  have : (n : Int) ≤ (n + 1 : Nat) := by push_cast; omega
  exact mul_le_mul_of_nonneg_right this hs

/-- C2, witness for the amended theorem at step 40 (the step of a 25 fps
session), n = 3. -/
theorem C2_clock_amended_witness :
    (0 : Int) ≤ 40 ∧
    (advanceN (QmlAnimationDriver.create 40) 3).elapsedMs = ((3 : Nat) : Int) * 40 ∧
    (advanceN (QmlAnimationDriver.create 40) 3).elapsedMs ≤
      (advanceN (QmlAnimationDriver.create 40) (3 + 1)).elapsedMs :=
  ⟨by decide, (C2_clock_amended 40 3).1, (C2_clock_amended 40 3).2.2 (by decide)⟩

/-- C3: `initDriver` is invoked by `init` on the first render call of every
session (`m_status == NotRunning` holds then), including a static session
with `duration = 0`, and there its step computation divides by zero:
`correctedFps = (m_framesCount - 2) / m_duration` with `m_duration = 0`.
Evaluating the embedded computation at `fps = 25`, `duration = 0` yields
`none` (division by zero), contradicting the claim that the computation is
well defined for every session. -/
theorem C3_initDriver_div_by_zero : initDriverStep 25 0 = none := rfl

/-- C6: in `QmlCoreRenderer::render`, when making the GPU context current
fails, the step returns immediately: the worker state (in particular the
image result `m_image`) is unchanged and `m_cond` is not signalled, so the
blocked caller is never woken by this step. -/
theorem C6_context_failure (size : Int × Int) (dpr : Int) (st : CoreState) :
    (QmlCoreRenderer.renderEvent false size dpr st).state = st ∧
    (QmlCoreRenderer.renderEvent false size dpr st).signaled = false :=
  ⟨rfl, rfl⟩

/-- C7: evaluating the facade's load path at a failing input.  For a scene
document that fails to parse (`componentIsError = true`), `loadRootObject`
returns false with `m_rootItem` left null, and `loadInput` — whose only
guard is a release-mode no-op `Q_ASSERT` — proceeds to
`m_rootItem->setWidth(...)`: a null dereference, not a distinguishable
load-error result.  This contradicts the claim, which demands a load error
and no dereference of an absent root item; the spec records this as an
observed defect of the source, so the code, not the claim, is wrong. -/
theorem C7_load_failure_null_deref :
    loadInput true true 720 576 = LoadInputResult.nullDeref := rfl

/-- Helper for C1, in-range case: started at frame counter `c` with `c`
advances already performed, the loop captures at frame `req < framesCount`
with the image rendered after `req` advances, the capture happening after
`req + 1` advances. -/
theorem renderAnimatedLoop_in_range (req fc : Int) (hfc : req < fc) :
    ∀ (n : Nat) (c : Int), (req - c).toNat = n → c ≤ req →
      renderAnimatedLoop req fc c c = (req, req + 1) := by
  intro n
  induction n with
  | zero =>
    intro c hn hc
    have hcr : c = req := by omega
    subst hcr
    unfold renderAnimatedLoop
    split
    next => rfl
    next h => exact absurd rfl h
  | succ n ih =>
    intro c hn hc
    have hlt : c < req := by omega
    unfold renderAnimatedLoop
    split
    next h => exact absurd h (by omega)
    next h =>
      split
      next h2 => exact ih (c + 1) (by omega) (by omega)
      next h2 => exact absurd (show c + 1 < fc by omega) h2

/-- Helper for C1, out-of-range case: when `framesCount ≤ req`, the loop
never captures early, runs to the last frame `framesCount - 1` and returns
its image, having performed `framesCount` advances in total. -/
theorem renderAnimatedLoop_out_range (req fc : Int) (hreq : fc ≤ req) :
    ∀ (n : Nat) (c : Int), (fc - 1 - c).toNat = n → c < fc →
      renderAnimatedLoop req fc c c = (fc - 1, fc) := by
  intro n
  induction n with
  | zero =>
    intro c hn hc
    unfold renderAnimatedLoop
    split
    next h => exact absurd h (by omega)
    next h =>
      split
      next h2 => exact absurd h2 (by omega)
      next h2 =>
        simp only [Prod.mk.injEq]
        omega
  | succ n ih =>
    intro c hn hc
    unfold renderAnimatedLoop
    split
    next h => exact absurd h (by omega)
    next h =>
      split
      next h2 => exact ih (c + 1) (by omega) (by omega)
      next h2 => exact absurd (show c + 1 < fc by omega) h2

/-- C1: for an animated session with fps `F` and duration `D`, the total
frame count stored by the constructor is `F * D`; the frame-seeking loop of
`render(width, height, format, i)` terminates for every requested index
(the loop function is total), for `0 ≤ i < F * D` it returns the image of
frame `i` (rendered after `i` driver advances), the capture happening after
exactly `i + 1` advances of the animation driver, and for `i ≥ F * D` it
returns the image of the last rendered frame `F * D - 1` instead of looping
or hanging. -/
theorem C1_animated_frame_seek (F D i : Int) (hF : 0 < F) (hD : 0 < D) :
    framesCountOf F D = F * D ∧
    (0 ≤ i → i < F * D → renderAnimatedResult F D i = (i, i + 1)) ∧
    (F * D ≤ i → renderAnimatedResult F D i = (F * D - 1, F * D)) := by
  refine ⟨rfl, ?_, ?_⟩
  · intro h0 hlt
    exact renderAnimatedLoop_in_range i (framesCountOf F D) hlt _ 0 rfl h0
  · intro hge
    have hfc : (0 : Int) < framesCountOf F D := mul_pos hF hD
    exact renderAnimatedLoop_out_range i (framesCountOf F D) hge _ 0 rfl hfc

/-- C1, witness: a 25 fps, 2 second session has 50 frames; requesting frame
3 captures after 4 advances; requesting frame 60 returns frame 49's
image. -/
theorem C1_animated_frame_seek_witness :
    (0 : Int) < 25 ∧ (0 : Int) < 2 ∧ (0 : Int) ≤ 3 ∧ (3 : Int) < 25 * 2 ∧
    renderAnimatedResult 25 2 3 = (3, 3 + 1) ∧
    (25 * 2 : Int) ≤ 60 ∧ renderAnimatedResult 25 2 60 = (25 * 2 - 1, 25 * 2) :=
  ⟨by decide, by decide, by decide, by decide,
   (C1_animated_frame_seek 25 2 3 (by decide) (by decide)).2.1 (by decide) (by decide),
   by decide,
   (C1_animated_frame_seek 25 2 60 (by decide) (by decide)).2.2 (by decide)⟩

/-- C4, counterexample.  The claim asserts `getMaxDuration` "returns a
well-defined value (0 when no duration is found, including for a parallel
group with no children)".  On a parallel group with no children the source
dereferences `max_element` of an empty vector, and on a plain node none of
whose children yields a positive duration it falls off the end of the
non-void function: neither evaluation is a well-defined 0. -/
theorem C4_getMaxDuration_counterexample :
    getMaxDuration (QNode.node strParallelGroup [] []) = none ∧
    getMaxDuration (QNode.node strParallelGroup [] []) ≠ some 0 ∧
    getMaxDuration (QNode.node strOtherItem [] []) = none := by
  decide

/-- C4, amended.  `getMaxDuration` computes: for a node whose class name
contains `Sequential`, the sum of the children's durations; for one
containing `Parallel` (and not `Sequential`), the maximum of the children's
durations provided there is at least one child; for a leaf animation node,
`getIntProp(root, "duration")`; and otherwise the first strictly positive
duration among the recursively visited children.  The result is NOT
well defined in two cases the claim covers: a parallel group with no
children (the code dereferences `max_element` of an empty range), and a
plain node none of whose children yields a positive duration (the code
falls off the end of the function). -/
theorem C4_getMaxDuration_amended (name : String) (props : List (String × Int))
    (children : List QNode) :
    (strContains name strSequential = true →
        ∀ ds, childDurations children = some ds →
          getMaxDuration (QNode.node name props children) =
            some (ds.foldl (fun a b => a + b) 0)) ∧
    (strContains name strSequential = false → strContains name strParallel = true →
        ∀ d ds, childDurations children = some (d :: ds) →
          getMaxDuration (QNode.node name props children) = some (ds.foldl max d)) ∧
    (strContains name strSequential = false → strContains name strParallel = false →
        isAnimationLeaf name = true →
          getMaxDuration (QNode.node name props children) =
            some (getIntProp props strDuration)) ∧
    (strContains name strSequential = false → strContains name strParallel = false →
        isAnimationLeaf name = false →
          getMaxDuration (QNode.node name props children) =
            firstPositiveChild children) ∧
    (strContains name strSequential = false → strContains name strParallel = true →
        children = [] → getMaxDuration (QNode.node name props children) = none) := by
  refine ⟨?_, ?_, ?_, ?_, ?_⟩
  · intro hseq ds hds
    simp [getMaxDuration, hseq, hds]
  · intro hseq hpar d ds hds
    simp [getMaxDuration, hseq, hpar, hds]
  · intro hseq hpar hleaf
    simp [getMaxDuration, hseq, hpar, hleaf]
  · intro hseq hpar hleaf
    simp [getMaxDuration, hseq, hpar, hleaf]
  · intro hseq hpar hnil
    subst hnil
    simp [getMaxDuration, hseq, hpar, childDurations]

/-- C4, witness at the spec's example scenario: a parallel group containing
a sequential group (2000 ms + 3000 ms) and a 4000 ms leaf; the result is
the maximum of 2+3 and 4 seconds. -/
theorem C4_getMaxDuration_amended_witness :
    strContains strParallelGroup strSequential = false ∧
    strContains strParallelGroup strParallel = true ∧
    childDurations [seqFixture, leafAnim 4000] = some (5 :: [4]) ∧
    getMaxDuration (QNode.node strParallelGroup [] [seqFixture, leafAnim 4000]) =
      some 5 :=
  ⟨by decide, by decide, by decide,
   ((C4_getMaxDuration_amended strParallelGroup [] [seqFixture, leafAnim 4000]).2.1
       (by decide) (by decide) 5 [4] (by decide)).trans (by decide)⟩

/-- C5, counterexample.  The claim quantifies over every render session and
cites both workers' `ensureFbo`; in the `CoreRenderer` variant of the
companion translation unit the body of the size-mismatch branch is
commented out (`// m_fbo.reset();`), so rendering at 100×100 and then at
200×150 on the same session keeps the 100×100 render target and the second
call's output image is 100×100, not 200×150. -/
theorem C5_resize_counterexample :
    (CoreRenderer.renderEvent true (200, 150) 1
        ((CoreRenderer.renderEvent true (100, 100) 1 ⟨none, none⟩).state)).state.m_image ≠
      some (200, 150) ∧
    (CoreRenderer.renderEvent true (200, 150) 1
        ((CoreRenderer.renderEvent true (100, 100) 1 ⟨none, none⟩).state)).state.m_fbo =
      some (100, 100) := by
  decide

/-- Helper: `QmlCoreRenderer::ensureFbo` always leaves an FBO of exactly
the requested size times the device pixel ratio, deleting a stale one. -/
theorem qmlEnsureFbo_eq (size : Int × Int) (dpr : Int)
    (fbo0 : Option (Int × Int)) :
    QmlCoreRenderer.ensureFbo size dpr fbo0 = some (size.1 * dpr, size.2 * dpr) := by
  rcases fbo0 with _ | s
  · rfl
  · by_cases h : s = (size.1 * dpr, size.2 * dpr)
    · subst h
      simp [QmlCoreRenderer.ensureFbo]
    · simp [QmlCoreRenderer.ensureFbo, h]

/-- C5, amended.  The claim holds for the worker the producer actually
instantiates, `QmlCoreRenderer` (qml_wrapper.cpp): its `ensureFbo`
reallocates the render target whenever the requested size (times device
pixel ratio, fixed at 1) differs from the existing target's size, so
rendering at size A and then at size B ≠ A yields a target of size B and
output images of size A and B respectively.  In the `CoreRenderer` variant
of the companion translation unit the reallocation is commented out and the
property fails (see the counterexample). -/
theorem C5_resize_amended (A B : Int × Int) (st : CoreState) (_hAB : A ≠ B) :
    (QmlCoreRenderer.renderEvent true A 1 st).state.m_image = some A ∧
    (QmlCoreRenderer.renderEvent true B 1
        (QmlCoreRenderer.renderEvent true A 1 st).state).state.m_fbo = some B ∧
    (QmlCoreRenderer.renderEvent true B 1
        (QmlCoreRenderer.renderEvent true A 1 st).state).state.m_image = some B := by
  simp [QmlCoreRenderer.renderEvent, qmlEnsureFbo_eq]

/-- C5, witness for the amended theorem: 100×100 then 200×150 through the
`QmlCoreRenderer` worker. -/
theorem C5_resize_amended_witness :
    ((100, 100) : Int × Int) ≠ (200, 150) ∧
    (QmlCoreRenderer.renderEvent true (200, 150) 1
        (QmlCoreRenderer.renderEvent true (100, 100) 1 ⟨none, none⟩).state).state.m_image =
      some (200, 150) :=
  ⟨by decide, (C5_resize_amended (100, 100) (200, 150) ⟨none, none⟩ (by decide)).2.2⟩

/-- Helper: a strictly positive duration below one second truncates to 0
under the millisecond-to-second integer division of `getIntProp`. -/
theorem tdiv_thousand_eq_zero (v : Int) (h0 : 0 < v) (h1 : v < 1000) :
    Int.tdiv v 1000 = 0 := by
  lift v to ℕ using h0.le with m hm
  have hm2 : m < 1000 := by omega
  show Int.ofNat (m / 1000) = 0
  rw [Nat.div_eq_of_lt hm2]
  rfl

/-- C8: `getIntProp` returns 0 when no property matches the name with a
strictly positive value; it returns the value of the first such property,
divided by 1000 (C++ truncating division) when the property name is
`duration`; consequently a leaf animation whose declared duration is below
1000 milliseconds contributes duration 0 to the scene's timeline. -/
theorem C8_getIntProp_first_positive (name : String) :
    (∀ props : List (String × Int),
        (∀ p ∈ props, ¬(p.1 = name ∧ 0 < p.2)) → getIntProp props name = 0) ∧
    (∀ (pre post : List (String × Int)) (v : Int),
        (∀ p ∈ pre, ¬(p.1 = name ∧ 0 < p.2)) → 0 < v →
          getIntProp (pre ++ (name, v) :: post) name =
            if name = strDuration then Int.tdiv v 1000 else v) ∧
    (∀ v : Int, 0 < v → v < 1000 →
        getMaxDuration (QNode.node strNumberAnimation [(strDuration, v)] []) =
          some 0) := by
  refine ⟨?_, ?_, ?_⟩
  · intro props
    induction props with
    | nil => intro _; rfl
    | cons p rest ih =>
      intro hnone
      obtain ⟨n1, v1⟩ := p
      have h1 : ¬(n1 = name ∧ 0 < v1) := hnone (n1, v1) (by simp)
      simp only [getIntProp]
      rw [if_neg h1]
      exact ih fun q hq => hnone q (by simp [hq])
  · intro pre
    induction pre with
    | nil =>
      intro post v _ hv
      simp only [List.nil_append, getIntProp]
      simp [hv]
    | cons p rest ih =>
      intro post v hnone hv
      obtain ⟨n1, v1⟩ := p
      have h1 : ¬(n1 = name ∧ 0 < v1) := hnone (n1, v1) (by simp)
      simp only [List.cons_append, getIntProp]
      rw [if_neg h1]
      exact ih post v (fun q hq => hnone q (by simp [hq])) hv
  · intro v h0 h1000
    have hseq : strContains strNumberAnimation strSequential = false := by decide
    have hpar : strContains strNumberAnimation strParallel = false := by decide
    have hleaf : isAnimationLeaf strNumberAnimation = true := by decide
    have hdiv := tdiv_thousand_eq_zero v h0 h1000
    simp [getMaxDuration, hseq, hpar, hleaf, getIntProp, h0, hdiv]

/-- C8, witness: a 1500 ms duration property yields 1 second; a non-positive
match yields 0; a 500 ms leaf contributes duration 0. -/
theorem C8_getIntProp_witness :
    (0 : Int) < 1500 ∧
    getIntProp [(strDuration, 1500)] strDuration = 1 ∧
    getIntProp [(strDuration, -5)] strDuration = 0 ∧
    (0 : Int) < 500 ∧ (500 : Int) < 1000 ∧
    getMaxDuration (QNode.node strNumberAnimation [(strDuration, 500)] []) = some 0 :=
  ⟨by decide,
   ((C8_getIntProp_first_positive strDuration).2.1 [] [] 1500 (by simp)
       (by decide)).trans (by decide),
   (C8_getIntProp_first_positive strDuration).1 [(strDuration, -5)] (by decide),
   by decide, by decide,
   (C8_getIntProp_first_positive strDuration).2.2 500 (by decide) (by decide)⟩

/-- C9: `producer_get_image` returns error code 1 exactly when the producer
holds no current image after the render attempt, and 0 otherwise; on
success the frame receives a freshly allocated copy of the cached image
buffer (same contents, different address — never the producer's own cached
buffer), and likewise a fresh copy of the alpha buffer when one exists.
The hypotheses are the `mlt_pool` freshness invariant: every buffer the
producer holds was allocated before `pool.next`. -/
theorem C9_get_image_clone (self : KTitleState) (frame : FrameState) (pool : Pool)
    (himg : ptrFresh self.current_image pool.next = true)
    (halpha : ptrFresh self.current_alpha pool.next = true) :
    ((producer_get_image_clone self frame pool).err = 1 ↔
        self.current_image = none) ∧
    (∀ src, self.current_image = some src →
        (producer_get_image_clone self frame pool).err = 0 ∧
        (producer_get_image_clone self frame pool).frame.image = some pool.next ∧
        pool.next ≠ src ∧
        (producer_get_image_clone self frame pool).pool.mem pool.next =
          pool.mem src) ∧
    (∀ src asrc, self.current_image = some src → self.current_alpha = some asrc →
        (producer_get_image_clone self frame pool).frame.alpha =
          some (pool.next + 1) ∧
        pool.next + 1 ≠ asrc ∧
        (producer_get_image_clone self frame pool).pool.mem (pool.next + 1) =
          pool.mem asrc) := by
  obtain ⟨img, alpha⟩ := self
  rcases img with _ | src
  · simp [producer_get_image_clone]
  · have hsrc : src < pool.next := by simpa [ptrFresh] using himg
    rcases alpha with _ | asrc
    · refine ⟨by simp [producer_get_image_clone], ?_, ?_⟩
      · intro src2 hsrc2
        obtain rfl : src = src2 := by simpa using hsrc2
        refine ⟨rfl, rfl, by omega, ?_⟩
        simp [producer_get_image_clone, Pool.alloc, Pool.write]
      · intro src2 asrc2 _ h
        simp at h
    · have hasrc : asrc < pool.next := by simpa [ptrFresh] using halpha
      refine ⟨by simp [producer_get_image_clone], ?_, ?_⟩
      · intro src2 hsrc2
        obtain rfl : src = src2 := by simpa using hsrc2
        refine ⟨rfl, rfl, by omega, ?_⟩
        have hne : pool.next ≠ pool.next + 1 := by omega
        simp [producer_get_image_clone, Pool.alloc, Pool.write, hne]
      · intro src2 asrc2 hsrc2 hasrc2
        obtain rfl : src = src2 := by simpa using hsrc2
        obtain rfl : asrc = asrc2 := by simpa using hasrc2
        refine ⟨rfl, by omega, ?_⟩
        have hne : asrc ≠ pool.next := by omega
        simp [producer_get_image_clone, Pool.alloc, Pool.write, hne]

/-- C9, witness: image cached at address 3, alpha at 4, allocator at 10:
the call succeeds, the frame gets the fresh address 10 (not 3), and the
alpha copy gets the fresh address 11 (not 4). -/
theorem C9_get_image_clone_witness :
    ptrFresh (some 3) 10 = true ∧ ptrFresh (some 4) 10 = true ∧
    (producer_get_image_clone ⟨some 3, some 4⟩ ⟨none, none⟩
        ⟨10, fun _ => []⟩).err = 0 ∧
    (producer_get_image_clone ⟨some 3, some 4⟩ ⟨none, none⟩
        ⟨10, fun _ => []⟩).frame.image = some 10 ∧
    (10 : Nat) ≠ 3 ∧
    (producer_get_image_clone ⟨some 3, some 4⟩ ⟨none, none⟩
        ⟨10, fun _ => []⟩).frame.alpha = some (10 + 1) ∧
    (10 + 1 : Nat) ≠ 4 := by
  have H := C9_get_image_clone ⟨some 3, some 4⟩ ⟨none, none⟩ ⟨10, fun _ => []⟩
    (by decide) (by decide)
  have h2 := H.2.1 3 rfl
  have h3 := H.2.2 3 4 rfl rfl
  exact ⟨by decide, by decide, h2.1, h2.2.1, h2.2.2.1, h3.1, h3.2.1⟩

/-- C10: on every `producer_get_image` call with `force_reload` nonzero on
entry, the flag is 0 after the call (consumed either by the explicit
`mlt_properties_set_int(..., "force_reload", 0)` or by
`renderKdenliveTitle` running with `force_refresh = 1`), and `read_qml`
re-reads the QML source file from disk during the call exactly when
`force_reload` was strictly greater than 1; with `force_reload` 0 on entry
the property keeps its value and the loaded scene data `_qmldata` is not
touched. -/
theorem C10_force_reload (traverse : QmlProps → QmlProps) (file : Option String)
    (parseOk durationSet sizeChanged animated : Bool) (props : QmlProps) :
    (props.force_reload ≠ 0 →
        (producer_get_image_props traverse file parseOk durationSet sizeChanged
            animated props).1.force_reload = 0) ∧
    ((producer_get_image_props traverse file parseOk durationSet sizeChanged
        animated props).2 = true ↔ 1 < props.force_reload) ∧
    (props.force_reload = 0 →
        (producer_get_image_props traverse file parseOk durationSet sizeChanged
            animated props).1.force_reload = props.force_reload ∧
        (producer_get_image_props traverse file parseOk durationSet sizeChanged
            animated props).1.qmldata = props.qmldata) := by
  by_cases hfr : props.force_reload = 0
  · refine ⟨fun h => absurd hfr h, ?_, fun _ => ?_⟩
    · simp only [producer_get_image_props, hfr]
      norm_num
    · unfold producer_get_image_props
      rw [if_neg (by simp [hfr])]
      unfold renderTitleProps
      split
      · exact ⟨hfr.symm, rfl⟩
      · exact ⟨rfl, rfl⟩
  · refine ⟨fun _ => ?_, ?_, fun h => absurd h hfr⟩
    · simp [producer_get_image_props, renderTitleProps, hfr]
    · simp [producer_get_image_props, hfr]

/-- C10, witness: entering with `force_reload = 2` consumes the flag and
re-reads the file; entering with `force_reload = 0` leaves `_qmldata`
untouched. -/
theorem C10_force_reload_witness :
    ((2 : Int) ≠ 0) ∧
    (producer_get_image_props id none true false false false
        ⟨2, none, 0⟩).1.force_reload = 0 ∧
    ((producer_get_image_props id none true false false false
        ⟨2, none, 0⟩).2 = true ↔ (1 : Int) < 2) ∧
    (producer_get_image_props id none true false false false
        ⟨0, none, 7⟩).1.qmldata = none :=
  ⟨by decide,
   (C10_force_reload id none true false false false ⟨2, none, 0⟩).1 (by decide),
   (C10_force_reload id none true false false false ⟨2, none, 0⟩).2.1,
   ((C10_force_reload id none true false false false ⟨0, none, 7⟩).2.2 rfl).2⟩
